import Mathlib

/-
Verification of the reconciliation engine in src/hotel/ :
  - constants.py      (RESERVATION_STATUS_MAPPING)
  - pms_functions.py  (api_call_with_retries, phone_is_valid,
                       get_guest_from_reservation_guest_id, create_or_update_stay)
  - pms_systems.py    (PMS_Mews.clean_webhook_payload / handle_webhook /
                       stay_has_breakfast)

The data model (hotel/models.py) and the upstream API (hotel/external_api.py)
are not part of the core source; they are modelled from the spec as plain
structures and as oracle functions.  Databases are modelled as key-indexed
partial maps; Django's save()/get_or_create become explicit state passing,
and Python exceptions become Except results.
-/

set_option maxHeartbeats 1000000

/-- Modelled from the spec: hotel/models.py is not in src.  The Stay status
enum, §3 of the spec: closed set BEFORE, INSTAY, AFTER, CANCEL, UNKNOWN. -/
inductive Status where
  | BEFORE
  | INSTAY
  | AFTER
  | CANCEL
  | UNKNOWN
deriving DecidableEq, Repr

/-- Modelled from the spec: hotel/models.py is not in src.  A Hotel has an
internal id (the database primary key) and an external pms_hotel_id. -/
structure Hotel where
  id : Nat
  pms_hotel_id : String
deriving DecidableEq, Repr

/-- Modelled from the spec: hotel/models.py is not in src.  A Guest is keyed
by phone (unique); the name is optional. -/
structure Guest where
  phone : String
  name : Option String
deriving DecidableEq, Repr

/-- Modelled from the spec: hotel/models.py is not in src.  A Stay is keyed
by the composite (pms_reservation_id, hotel); checkin/checkout are nullable
date values, carried here as the strings the API supplies. -/
structure Stay where
  pms_reservation_id : String
  hotel_id : Nat
  guest : Guest
  pms_guest_id : String
  status : Status
  checkin : Option String
  checkout : Option String
deriving DecidableEq, Repr

/-- The Guest table, as a partial map keyed by the unique phone. -/
abbrev GuestDB := String → Option Guest

/-- The Stay table, as a partial map keyed by the unique composite key
(pms_reservation_id, hotel primary key). -/
abbrev StayDB := String → Nat → Option Stay

def emptyGuestDB : GuestDB := fun _ => none

def emptyStayDB : StayDB := fun _ _ => none

/-- Embeds RESERVATION_STATUS_MAPPING from src/hotel/constants.py as an
Option-valued lookup: `some` on the six mapped vendor strings (dict
indexing), `none` for a missing key (dict membership test fails). -/
def RESERVATION_STATUS_MAPPING (s : String) : Option Status :=
  if s = "in_house" then some Status.INSTAY
  else if s = "checked_out" then some Status.AFTER
  else if s = "cancelled" then some Status.CANCEL
  else if s = "no_show" then some Status.UNKNOWN
  else if s = "not_confirmed" then some Status.BEFORE
  else if s = "booked" then some Status.BEFORE
  else none

/-- One invocation of the wrapped API operation inside
api_call_with_retries (src/hotel/pms_functions.py lines 19-41):
the call raises (APIError or any other exception), or it returns a payload
on which json.loads fails, or it returns a payload that decodes to a value
of type α. -/
inductive Attempt (α : Type) where
  | raise : String → Attempt α
  | badJson : String → Attempt α
  | ok : α → Attempt α
deriving DecidableEq, Repr

/-- Whether an attempt is the success case (payload returned and decoded). -/
def isOkAttempt {α : Type} : Attempt α → Bool
  | Attempt.ok _ => true
  | _ => false

/-- The terminal failure message raised after the retry loop exhausts
(src/hotel/pms_functions.py line 40): it names the operation and the
retry count. -/
def apiFailureMessage (apiname : String) : String :=
  "Api Call for " ++ apiname ++ ". failed after 20 retries. " ++
    "Raising Exception and preparing report"

/-- The retry loop of api_call_with_retries: `i` is the loop counter,
`n` counts invocations of the operation performed so far.  Each pass of the
`while i < 20` loop invokes the operation exactly once; a decoded payload
returns immediately, every failure falls through to `i = i + 1`. -/
def apiLoop {α : Type} (apiname : String) (f : Nat → Attempt α) (i n : Nat) :
    Except String α × Nat :=
  if i < 20 then
    match f i with
    | Attempt.ok a => (Except.ok a, n + 1)
    | Attempt.raise _ => apiLoop apiname f (i + 1) (n + 1)
    | Attempt.badJson _ => apiLoop apiname f (i + 1) (n + 1)
  else
    (Except.error (apiFailureMessage apiname), n)
termination_by 20 - i

/-- Embeds api_call_with_retries from src/hotel/pms_functions.py.  The
operation is modelled as the sequence of outcomes of its successive
invocations; the returned Nat is the number of invocations performed. -/
def api_call_with_retries {α : Type} (apiname : String) (f : Nat → Attempt α) :
    Except String α × Nat :=
  apiLoop apiname f 0 0

/-- An opaque parsed phone-number object of the third-party capability. -/
structure PhoneNumber where
  raw : String
deriving DecidableEq, Repr

/-- The names bound at module top level of src/hotel/pms_functions.py
(its import statements and module-level assignments).  `phonenumbers` is
not among them: the module never imports the phonenumbers package. -/
def pmsFunctionsImportedNames : List String :=
  ["time", "json", "logging", "datetime", "os", "JSONDecodeError",
   "IntegrityError", "Stay", "Guest", "Hotel", "RESERVATION_STATUS_MAPPING",
   "APIError", "get_guest_details", "logger"]

/-- Embeds phone_is_valid from src/hotel/pms_functions.py lines 62-69.
The body evaluates `phonenumbers.parse(phone, None)` inside a try with a
bare except returning False.  Name resolution is modelled explicitly
against the module's bound names: since `phonenumbers` is not imported,
the lookup raises NameError, which the bare except catches, so the
parse/validate capability (passed here as the two function arguments) is
never consulted. -/
def phone_is_valid (parse : String → Option PhoneNumber)
    (is_valid_number : PhoneNumber → Bool)
    (phone : String) (e164formatted : Bool) : Bool :=
  if "phonenumbers" ∈ pmsFunctionsImportedNames then
    match parse phone with
    | none => false
    | some x => is_valid_number x
  else
    false

/-- The result of the fetched get_guest_details payload: Name and Phone. -/
structure GuestDetails where
  Name : String
  Phone : String
deriving DecidableEq, Repr

/-- Name normalization in get_guest_from_reservation_guest_id and
handle_webhook: the empty string becomes null. -/
def normalizeGuestName (n : String) : Option String :=
  if n = "" then none else some n

/-- Embeds Guest.objects.get_or_create(phone=..., defaults=dict with name)
over the phone-keyed Guest table: return the stored Guest when the phone
exists, otherwise create and store a Guest with the fetched name. -/
def getOrCreateGuest (guests : GuestDB) (phone : String) (name : Option String) :
    Guest × GuestDB :=
  match guests phone with
  | some g => (g, guests)
  | none =>
    let g : Guest := { phone := phone, name := name }
    (g, fun p => if p = phone then some g else guests p)

/-- Embeds get_guest_from_reservation_guest_id from
src/hotel/pms_functions.py lines 94-144.  The api_call_with_retries fetch
is summarised by its net outcome (`none` = the retries exhausted and the
surrounding except re-raises, `some` = decoded payload).  The phone
validity check feeds an `if ... : pass` and has no effect.  The third
component of the result is the list of reports/flags the call surfaces to
its caller: the name-mismatch comparison `guest.name != reservation_guest_name`
also has a `pass` body, so no report is ever emitted. -/
def get_guest_from_reservation_guest_id (fetchResult : Option GuestDetails)
    (guests : GuestDB) : Except String (Guest × GuestDB × List String) :=
  match fetchResult with
  | none =>
    Except.error ("API call for get_guest_details failed. " ++
      "Stopping Webhook processing.")
  | some details =>
    let reservation_guest_name := normalizeGuestName details.Name
    let gp := getOrCreateGuest guests details.Phone reservation_guest_name
    Except.ok (gp.1, gp.2, [])

/-- The value returned by create_or_update_stay: Python returns False on a
mapping miss and the Stay object otherwise. -/
inductive StayResult where
  | failure
  | stay : Stay → StayResult
deriving DecidableEq, Repr

/-- A persistence operation recorded by the reconciler: a create, or an
update (one save) tagged with the list of fields the diff assigned. -/
inductive WriteOp where
  | create : Stay → WriteOp
  | update : String → Nat → List String → WriteOp
deriving DecidableEq, Repr

/-- One reconciliation call's outcome: the returned value, the Stay table
afterwards, and the persistence operations performed. -/
structure StayCallResult where
  result : StayResult
  db : StayDB
  writes : List WriteOp

/-- Store a Stay at the composite key (the row the save writes). -/
def setStay (stays : StayDB) (rid : String) (hid : Nat) (s : Stay) : StayDB :=
  fun r h => if r = rid ∧ h = hid then some s else stays r h

/-- The update branch of create_or_update_stay, lines 199-213: assign
status, checkin and checkout each only when it differs from the stored
value; the guest comparison has a `pass` body and changes nothing;
pms_guest_id is never compared or assigned. -/
def applyStayUpdate (old_stay : Stay) (guest : Guest) (status : Status)
    (reservation_checkin reservation_checkout : Option String) : Stay :=
  let s1 := if old_stay.status ≠ status
    then { old_stay with status := status } else old_stay
  let s2 := if s1.checkin ≠ reservation_checkin
    then { s1 with checkin := reservation_checkin } else s1
  if s2.checkout ≠ reservation_checkout
    then { s2 with checkout := reservation_checkout } else s2

/-- The fields the update branch's single save carries as changes: exactly
those whose stored value differed from the incoming one. -/
def updateDiff (old_stay : Stay) (status : Status)
    (reservation_checkin reservation_checkout : Option String) : List String :=
  (if old_stay.status ≠ status then ["status"] else []) ++
  (if old_stay.checkin ≠ reservation_checkin then ["checkin"] else []) ++
  (if old_stay.checkout ≠ reservation_checkout then ["checkout"] else [])

/-- Embeds create_or_update_stay from src/hotel/pms_functions.py lines
146-222.  A mapping miss returns False with no database access.  Otherwise
the Stay table is consulted at (pms_reservation_id, hotel): if absent, a
new Stay is built from the arguments and saved once; if present, the
stored Stay is updated field-by-field (applyStayUpdate) and saved once.
The model database cannot fail, so the source's except-and-re-raise wrappers
around save are unreachable here. -/
def create_or_update_stay (pms_reservation_id : String)
    (reservation_status : String)
    (reservation_checkin reservation_checkout : Option String)
    (pms_guest_id : String) (guest : Guest) (hotel : Hotel)
    (stays : StayDB) : StayCallResult :=
  match RESERVATION_STATUS_MAPPING reservation_status with
  | none => ⟨StayResult.failure, stays, []⟩
  | some status =>
    match stays pms_reservation_id hotel.id with
    | none =>
      let new_stay : Stay :=
        { pms_reservation_id := pms_reservation_id
          hotel_id := hotel.id
          guest := guest
          pms_guest_id := pms_guest_id
          status := status
          checkin := reservation_checkin
          checkout := reservation_checkout }
      ⟨StayResult.stay new_stay,
       setStay stays pms_reservation_id hotel.id new_stay,
       [WriteOp.create new_stay]⟩
    | some old_stay =>
      let updated := applyStayUpdate old_stay guest status
        reservation_checkin reservation_checkout
      ⟨StayResult.stay updated,
       setStay stays pms_reservation_id hotel.id updated,
       [WriteOp.update pms_reservation_id hotel.id
         (updateDiff old_stay status reservation_checkin reservation_checkout)]⟩

/-- One event of the webhook envelope: Name and a string-to-string Value
map (modelled as an association list). -/
structure Event where
  Name : String
  Value : List (String × String)
deriving DecidableEq, Repr

/-- The cleaned webhook payload as handle_webhook receives it from
clean_webhook_payload: the envelope fields plus the payload_valid flag the
cleaner sets. -/
structure WebhookData where
  payload_valid : Bool
  HotelId : String
  IntegrationId : String
  Events : List Event
deriving DecidableEq, Repr

/-- The decoded get_reservation_details payload consumed by
handle_webhook. -/
structure ResDetails where
  HotelId : String
  GuestId : String
  Status : String
  CheckInDate : String
  CheckOutDate : String
deriving DecidableEq, Repr

/-- The external collaborators of handle_webhook: the two upstream fetches
(each given as its net outcome through api_call_with_retries, `none` =
terminal failure after retries) and the Hotel table lookup by pms_hotel_id
(`none` = Hotel.DoesNotExist). -/
structure Env where
  get_reservation_details : String → Option ResDetails
  get_guest_details : String → Option GuestDetails
  hotels : String → Option Hotel

/-- The mutable database state handle_webhook threads through its event
loop: the Guest and Stay tables. -/
structure DBState where
  guests : GuestDB
  stays : StayDB

/-- Dictionary access event["Value"][key]: association-list lookup. -/
def lookupValue (kvs : List (String × String)) (k : String) : Option String :=
  (kvs.find? (fun kv => kv.1 = k)).map (fun kv => kv.2)

/-- Outcome of processing one event of the loop body: either fall through
to the next event (carrying the possibly re-bound local variable `hotel`
and the database state), or `return False` out of handle_webhook. -/
inductive StepRes where
  | cont : Option Hotel → DBState → StepRes
  | stop : DBState → StepRes

/-- One pass of the `for event in webhook_data["Events"]` loop body of
PMS_Mews.handle_webhook (src/hotel/pms_systems.py lines 150-323), in
source order:

* an event whose Name is not "ReservationUpdated" has no matching branch
  and simply falls through to the next event;
* event["Value"]["ReservationId"] raises KeyError when absent (the schema
  check of clean_webhook_payload does not require this key);
* a get_reservation_details terminal failure is caught and returns False;
* a HotelId mismatch with the envelope returns False;
* the Hotel lookup binds the local `hotel` on success; Hotel.DoesNotExist
  is passed, leaving the previous binding (unbound on the first event);
* a get_guest_details terminal failure (caught) returns False;
* the phone validity and date validity checks feed `pass` statements and
  are omitted as no-ops;
* Guest.objects.get_or_create upserts the guest by phone (the model store
  cannot raise IntegrityError, so those except branches are unreachable);
  the name-mismatch comparison has a `pass` body;
* a status-mapping miss returns False (after the guest upsert);
* the Stay existence check evaluates the local `hotel`: if no lookup has
  bound it, Python raises UnboundLocalError, modelled as an error result;
* the create / field-by-field update mirrors create_or_update_stay; the
  update branch's try/except prints and passes, and the model store cannot
  fail. -/
def processEvent (env : Env) (webhook_hotel_id : String) (event : Event)
    (hotel0 : Option Hotel) (st : DBState) : Except String StepRes :=
  if event.Name = "ReservationUpdated" then
    match lookupValue event.Value "ReservationId" with
    | none => Except.error "KeyError: ReservationId"
    | some reservation_id =>
      match env.get_reservation_details reservation_id with
      | none => Except.ok (StepRes.stop st)
      | some reservation_details =>
        if reservation_details.HotelId ≠ webhook_hotel_id then
          Except.ok (StepRes.stop st)
        else
          let reservation_guest_id := reservation_details.GuestId
          let hotel1 : Option Hotel :=
            match env.hotels reservation_details.HotelId with
            | some hh => some hh
            | none => hotel0
          match env.get_guest_details reservation_guest_id with
          | none => Except.ok (StepRes.stop st)
          | some gd =>
            let reservation_guest_name := normalizeGuestName gd.Name
            let gp := getOrCreateGuest st.guests gd.Phone reservation_guest_name
            match RESERVATION_STATUS_MAPPING reservation_details.Status with
            | none => Except.ok (StepRes.stop ⟨gp.2, st.stays⟩)
            | some status =>
              let reservation_checkin := reservation_details.CheckInDate
              let reservation_checkout := reservation_details.CheckOutDate
              match hotel1 with
              | none =>
                Except.error
                  "UnboundLocalError: local variable hotel referenced before assignment"
              | some hotel =>
                match st.stays reservation_id hotel.id with
                | none =>
                  let new_stay : Stay :=
                    { pms_reservation_id := reservation_id
                      hotel_id := hotel.id
                      guest := gp.1
                      pms_guest_id := reservation_guest_id
                      status := status
                      checkin := some reservation_checkin
                      checkout := some reservation_checkout }
                  Except.ok (StepRes.cont hotel1
                    ⟨gp.2, setStay st.stays reservation_id hotel.id new_stay⟩)
                | some old_stay =>
                  let updated := applyStayUpdate old_stay gp.1 status
                    (some reservation_checkin) (some reservation_checkout)
                  Except.ok (StepRes.cont hotel1
                    ⟨gp.2, setStay st.stays reservation_id hotel.id updated⟩)
  else
    Except.ok (StepRes.cont hotel0 st)

/-- The event loop of handle_webhook: process events in order; a
StepRes.stop is the `return False`, falling off the loop is the final
`return True`. -/
def processEvents (env : Env) (webhook_hotel_id : String) :
    List Event → Option Hotel → DBState → Except String (Bool × DBState)
  | [], _, st => Except.ok (true, st)
  | ev :: rest, h, st =>
    match processEvent env webhook_hotel_id ev h st with
    | Except.error e => Except.error e
    | Except.ok (StepRes.stop st1) => Except.ok (false, st1)
    | Except.ok (StepRes.cont h1 st1) => processEvents env webhook_hotel_id rest h1 st1

/-- Embeds PMS_Mews.handle_webhook from src/hotel/pms_systems.py lines
142-325: an invalid payload returns False at once; otherwise the events
are processed in order with the local variable `hotel` initially
unbound. -/
def handle_webhook (env : Env) (webhook_data : WebhookData) (st : DBState) :
    Except String (Bool × DBState) :=
  if webhook_data.payload_valid = false then
    Except.ok (false, st)
  else
    processEvents env webhook_data.HotelId webhook_data.Events none st

/-- Embeds PMS_Mews.stay_has_breakfast from src/hotel/pms_systems.py lines
331-333: the body is a TODO stub that returns None for every Stay, without
any reservation-details fetch. -/
def stay_has_breakfast (stay : Stay) : Option Bool :=
  none

/-- A JSON field value, for typing the BreakfastIncluded field. -/
inductive JsonField where
  | jbool : Bool → JsonField
  | jstr : String → JsonField
deriving DecidableEq, Repr

/-- Follows the spec's words (§4.6), for comparison with the source's
stay_has_breakfast: a live reservation-details fetch whose outcome is
`none` on fetch failure (→ the call returns False), otherwise the
BreakfastIncluded field when present and boolean-typed, `None` when the
field is missing or not boolean-typed. -/
def stay_has_breakfast_spec (fetchResult : Option (Option JsonField)) :
    Option Bool :=
  match fetchResult with
  | none => some false
  | some none => none
  | some (some (JsonField.jbool b)) => some b
  | some (some (JsonField.jstr _)) => none

/-- The Bool the webhook handler returned, when it returned (rather than
raised). -/
def hookReturn (r : Except String (Bool × DBState)) : Option Bool :=
  match r with
  | Except.ok (b, _) => some b
  | Except.error _ => none

/-- The unhandled error the webhook handler raised, if any. -/
def hookError (r : Except String (Bool × DBState)) : Option String :=
  match r with
  | Except.ok _ => none
  | Except.error e => some e

/-- The Stay table entry at a key after the webhook handler returned
(`none` when it raised instead). -/
def hookStayAt (r : Except String (Bool × DBState)) (rid : String) (hid : Nat) :
    Option (Option Stay) :=
  match r with
  | Except.ok (_, st) => some (st.stays rid hid)
  | Except.error _ => none

/-- The Guest returned by get_guest_from_reservation_guest_id, when it
returned. -/
def guestCallGuest (r : Except String (Guest × GuestDB × List String)) :
    Option Guest :=
  match r with
  | Except.ok (g, _, _) => some g
  | Except.error _ => none

/-- The reports surfaced by get_guest_from_reservation_guest_id, when it
returned. -/
def guestCallReports (r : Except String (Guest × GuestDB × List String)) :
    Option (List String) :=
  match r with
  | Except.ok (_, _, rep) => some rep
  | Except.error _ => none

/-- A concrete hotel used in concrete scenarios. -/
def sampleHotel : Hotel := ⟨1, "H1"⟩

/-- A concrete guest used in concrete scenarios. -/
def sampleGuest : Guest := ⟨"+15551234567", some "Ann"⟩

/-- A concrete stored Stay used in concrete update scenarios. -/
def sampleOldStay : Stay :=
  ⟨"R1", 1, sampleGuest, "G1", Status.INSTAY, some "2024-05-01", some "2024-05-03"⟩

/-- A Stay table holding exactly sampleOldStay at its key. -/
def sampleStayDB : StayDB :=
  fun r h => if r = "R1" ∧ h = 1 then some sampleOldStay else none

/-- A Guest table holding Ann under her phone. -/
def sampleGuestDB : GuestDB :=
  fun p => if p = "+15551234567" then some sampleGuest else none

/-- The Guest table after the first resolution of Ann against an empty
table. -/
def guestDBAfterAnn : GuestDB :=
  fun p => if p = "+15551234567" then some sampleGuest else none

/-- The empty database state. -/
def emptyDBState : DBState := ⟨emptyGuestDB, emptyStayDB⟩

/-- Claim C1 as a proposition at one input vector: calling
create_or_update_stay twice with identical arguments returns an equivalent
Stay the second time, leaves the Stay table unchanged, and the second
call's single persistence operation carries no changed fields. -/
def reconcileIdempotentAt (rid rs : String) (ci co : Option String)
    (gid : String) (g : Guest) (h : Hotel) (db : StayDB) : Prop :=
  let r1 := create_or_update_stay rid rs ci co gid g h db
  let r2 := create_or_update_stay rid rs ci co gid g h r1.db
  r2.result = r1.result ∧ r2.db = r1.db ∧
    r2.writes = [WriteOp.update rid h.id []]

/-- Claim C4 as a proposition at one input vector: the update path returns
the stored Stay with only status/checkin/checkout replaced (guest,
pms_guest_id, pms_reservation_id and hotel are those of the stored Stay),
writes once at the composite key, and the write's changed-field set
contains exactly the mutable fields whose incoming value differed. -/
def updateFrameAt (rid rs : String) (ci co : Option String) (gid : String)
    (g : Guest) (h : Hotel) (db : StayDB) (st : Status) (old : Stay) : Prop :=
  create_or_update_stay rid rs ci co gid g h db =
    ⟨StayResult.stay { old with status := st, checkin := ci, checkout := co },
     setStay db rid h.id { old with status := st, checkin := ci, checkout := co },
     [WriteOp.update rid h.id (updateDiff old st ci co)]⟩ ∧
  ("status" ∈ updateDiff old st ci co ↔ old.status ≠ st) ∧
  ("checkin" ∈ updateDiff old st ci co ↔ old.checkin ≠ ci) ∧
  ("checkout" ∈ updateDiff old st ci co ↔ old.checkout ≠ co) ∧
  "guest" ∉ updateDiff old st ci co ∧
  "pms_guest_id" ∉ updateDiff old st ci co

/-- Environment of the unknown-status webhook scenario: reservation R1
carries an unmapped vendor status, reservation R2 a mapped one, and both
guests and the hotel resolve. -/
def envUnknownStatus : Env where
  get_reservation_details := fun rid =>
    if rid = "R1" then some ⟨"H1", "G1", "weird_status", "2024-05-01", "2024-05-03"⟩
    else if rid = "R2" then some ⟨"H1", "G2", "booked", "2024-06-01", "2024-06-03"⟩
    else none
  get_guest_details := fun gid =>
    if gid = "G1" then some ⟨"Ann", "+15551230001"⟩
    else if gid = "G2" then some ⟨"Bea", "+15551230002"⟩
    else none
  hotels := fun ph => if ph = "H1" then some sampleHotel else none

/-- Webhook payload with the unknown-status reservation first and a valid
reservation second. -/
def wdUnknownStatus : WebhookData :=
  ⟨true, "H1", "I1",
   [⟨"ReservationUpdated", [("ReservationId", "R1")]⟩,
    ⟨"ReservationUpdated", [("ReservationId", "R2")]⟩]⟩

/-- Environment of the unrecognized-event-name scenario: reservation R2
resolves normally. -/
def envUnrecognizedName : Env where
  get_reservation_details := fun rid =>
    if rid = "R2" then some ⟨"H1", "G2", "booked", "2024-06-01", "2024-06-03"⟩
    else none
  get_guest_details := fun gid =>
    if gid = "G2" then some ⟨"Bea", "+15551230002"⟩ else none
  hotels := fun ph => if ph = "H1" then some sampleHotel else none

/-- Webhook payload whose first event has an unrecognized Name and whose
second event is a valid ReservationUpdated. -/
def wdUnrecognizedName : WebhookData :=
  ⟨true, "H1", "I1",
   [⟨"SomethingElse", [("Foo", "Bar")]⟩,
    ⟨"ReservationUpdated", [("ReservationId", "R2")]⟩]⟩

/-- The Stay the valid second event of wdUnrecognizedName produces. -/
def stayR2 : Stay :=
  ⟨"R2", 1, ⟨"+15551230002", some "Bea"⟩, "G2", Status.BEFORE,
   some "2024-06-01", some "2024-06-03"⟩

/-- Environment of the hotel-lookup-miss scenario: the reservation and the
guest resolve, but the Hotel table is empty. -/
def envNoHotel : Env where
  get_reservation_details := fun rid =>
    if rid = "R1" then some ⟨"H1", "G1", "booked", "2024-05-01", "2024-05-03"⟩
    else none
  get_guest_details := fun gid =>
    if gid = "G1" then some ⟨"Ann", "+15551230001"⟩ else none
  hotels := fun _ => none

/-- Webhook payload with one valid ReservationUpdated event, used in the
hotel-lookup-miss scenario. -/
def wdNoHotel : WebhookData :=
  ⟨true, "H1", "I1", [⟨"ReservationUpdated", [("ReservationId", "R1")]⟩]⟩

/-- The guest-details payloads of the two-call name-mismatch scenario. -/
def detailsAnn : GuestDetails := ⟨"Ann", "+15551234567"⟩

/-- Second fetch of the same phone with a different name. -/
def detailsBob : GuestDetails := ⟨"Bob", "+15551234567"⟩

/-- A concrete stay for the breakfast scenario. -/
def sampleStayBreakfast : Stay :=
  ⟨"R1", 1, sampleGuest, "G1", Status.INSTAY, some "2024-05-01", some "2024-05-03"⟩

/-- An always-raising operation (every invocation raises APIError). -/
def alwaysRaise : Nat → Attempt Nat := fun _ => Attempt.raise "APIError"

/-- An operation that raises on its first five invocations and returns a
decodable payload on the sixth. -/
def failThenOk : Nat → Attempt Nat :=
  fun i => if i < 5 then Attempt.raise "APIError" else Attempt.ok 7

/-- The sequential field-by-field update of the update branch equals a
single record update setting the three mutable fields. -/
theorem applyStayUpdate_eq (old : Stay) (g : Guest) (st : Status)
    (ci co : Option String) :
    applyStayUpdate old g st ci co =
      { old with status := st, checkin := ci, checkout := co } := by
  cases old with
  | mk rid0 hid0 g0 gid0 st0 ci0 co0 =>
    by_cases h1 : st0 = st <;> by_cases h2 : ci0 = ci <;> by_cases h3 : co0 = co <;>
      simp_all [applyStayUpdate]

/-- A diff against values equal to the stored ones is empty. -/
theorem updateDiff_nil (s : Stay) (st : Status) (ci co : Option String)
    (h1 : s.status = st) (h2 : s.checkin = ci) (h3 : s.checkout = co) :
    updateDiff s st ci co = [] := by
  simp [updateDiff, h1, h2, h3]

/-- Reading back the key just written. -/
theorem setStay_get (db : StayDB) (rid : String) (hid : Nat) (s : Stay) :
    setStay db rid hid s rid hid = some s := by
  simp [setStay]

/-- Writing the value already stored at a key leaves the table unchanged. -/
theorem setStay_self (db : StayDB) (rid : String) (hid : Nat) (s : Stay)
    (hs : db rid hid = some s) : setStay db rid hid s = db := by
  funext r hh
  simp only [setStay]
  by_cases hcase : r = rid ∧ hh = hid
  · obtain ⟨rfl, rfl⟩ := hcase
    simp [hs]
  · simp [hcase]

/-- A record update that re-assigns each mutable field its stored value is
the identity. -/
theorem stay_update_self (s : Stay) (st : Status) (ci co : Option String)
    (h1 : s.status = st) (h2 : s.checkin = ci) (h3 : s.checkout = co) :
    ({ s with status := st, checkin := ci, checkout := co } : Stay) = s := by
  cases s
  simp_all

/-- A reconciliation call against a table whose stored Stay already equals
the incoming values on every mutable field returns that Stay, changes
nothing, and its single save carries no changed fields. -/
theorem create_or_update_stay_noop (rid rs : String) (ci co : Option String)
    (gid : String) (g : Guest) (h : Hotel) (db : StayDB) (st : Status) (s : Stay)
    (hmap : RESERVATION_STATUS_MAPPING rs = some st)
    (hdb : db rid h.id = some s)
    (h1 : s.status = st) (h2 : s.checkin = ci) (h3 : s.checkout = co) :
    create_or_update_stay rid rs ci co gid g h db =
      ⟨StayResult.stay s, db, [WriteOp.update rid h.id []]⟩ := by
  simp only [create_or_update_stay, hmap, hdb, applyStayUpdate_eq,
    stay_update_self s st ci co h1 h2 h3, updateDiff_nil s st ci co h1 h2 h3,
    setStay_self db rid h.id s hdb]

/-- Unfolding of the create branch: when no Stay exists at the composite
key and the status maps, a new Stay built from the arguments is saved
once. -/
theorem create_or_update_stay_create (rid rs : String) (ci co : Option String)
    (gid : String) (g : Guest) (h : Hotel) (db : StayDB) (st : Status)
    (hmap : RESERVATION_STATUS_MAPPING rs = some st)
    (hdb : db rid h.id = none) :
    create_or_update_stay rid rs ci co gid g h db =
      ⟨StayResult.stay ⟨rid, h.id, g, gid, st, ci, co⟩,
       setStay db rid h.id ⟨rid, h.id, g, gid, st, ci, co⟩,
       [WriteOp.create ⟨rid, h.id, g, gid, st, ci, co⟩]⟩ := by
  simp [create_or_update_stay, hmap, hdb]

/-- Unfolding of the update branch: when a Stay exists at the composite
key, it is updated field-by-field and saved once with the diff. -/
theorem create_or_update_stay_update (rid rs : String) (ci co : Option String)
    (gid : String) (g : Guest) (h : Hotel) (db : StayDB) (st : Status) (old : Stay)
    (hmap : RESERVATION_STATUS_MAPPING rs = some st)
    (hdb : db rid h.id = some old) :
    create_or_update_stay rid rs ci co gid g h db =
      ⟨StayResult.stay { old with status := st, checkin := ci, checkout := co },
       setStay db rid h.id { old with status := st, checkin := ci, checkout := co },
       [WriteOp.update rid h.id (updateDiff old st ci co)]⟩ := by
  simp [create_or_update_stay, hmap, hdb, applyStayUpdate_eq]

/-- C1: for every input tuple whose status string is one of the six known
vendor statuses (i.e. the mapping yields a value), a second
create_or_update_stay call with arguments identical to a first call on the
same (pms_reservation_id, hotel) key returns an equivalent Stay, leaves
the Stay table unchanged, and its single persistence operation carries no
changed fields (a no-op diff). -/
theorem stay_reconcile_idempotent (rid rs : String) (ci co : Option String)
    (gid : String) (g : Guest) (h : Hotel) (db : StayDB) (st : Status)
    (hmap : RESERVATION_STATUS_MAPPING rs = some st) :
    reconcileIdempotentAt rid rs ci co gid g h db := by
  cases hdb : db rid h.id with
  | none =>
    have e1 := create_or_update_stay_create rid rs ci co gid g h db st hmap hdb
    have e2 := create_or_update_stay_noop rid rs ci co gid g h
      (setStay db rid h.id ⟨rid, h.id, g, gid, st, ci, co⟩) st
      ⟨rid, h.id, g, gid, st, ci, co⟩ hmap
      (setStay_get db rid h.id ⟨rid, h.id, g, gid, st, ci, co⟩) rfl rfl rfl
    simp [reconcileIdempotentAt, e1, e2]
  | some old =>
    have e1 := create_or_update_stay_update rid rs ci co gid g h db st old hmap hdb
    have e2 := create_or_update_stay_noop rid rs ci co gid g h
      (setStay db rid h.id { old with status := st, checkin := ci, checkout := co }) st
      { old with status := st, checkin := ci, checkout := co } hmap
      (setStay_get db rid h.id { old with status := st, checkin := ci, checkout := co })
      rfl rfl rfl
    simp [reconcileIdempotentAt, e1, e2]

/-- Witness for C1 at a concrete input: the status string "booked" maps,
and reconciling twice from the empty table is idempotent. -/
theorem stay_reconcile_idempotent_witness :
    RESERVATION_STATUS_MAPPING "booked" = some Status.BEFORE ∧
    reconcileIdempotentAt "R1" "booked" (some "2024-05-01") (some "2024-05-03")
      "G1" sampleGuest sampleHotel emptyStayDB :=
  ⟨rfl, stay_reconcile_idempotent "R1" "booked" (some "2024-05-01")
    (some "2024-05-03") "G1" sampleGuest sampleHotel emptyStayDB
    Status.BEFORE rfl⟩

/-- C4: on an already-existing Stay, only status, checkin and checkout may
change, each assigned only when the incoming value differs from the stored
one; guest, pms_guest_id, pms_reservation_id and hotel are left unchanged,
with no assumption relating the incoming guest to the stored one. -/
theorem stay_update_frame (rid rs : String) (ci co : Option String)
    (gid : String) (g : Guest) (h : Hotel) (db : StayDB) (st : Status)
    (old : Stay)
    (hmap : RESERVATION_STATUS_MAPPING rs = some st)
    (hold : db rid h.id = some old) :
    updateFrameAt rid rs ci co gid g h db st old := by
  refine ⟨create_or_update_stay_update rid rs ci co gid g h db st old hmap hold,
    ?_, ?_, ?_, ?_, ?_⟩ <;>
    by_cases h1 : old.status = st <;> by_cases h2 : old.checkin = ci <;>
      by_cases h3 : old.checkout = co <;> simp_all [updateDiff]

/-- Witness for C4 at a concrete input with an incoming guest that differs
from the stored guest: only the mutable fields change. -/
theorem stay_update_frame_witness :
    RESERVATION_STATUS_MAPPING "cancelled" = some Status.CANCEL ∧
    sampleStayDB "R1" sampleHotel.id = some sampleOldStay ∧
    updateFrameAt "R1" "cancelled" (some "2024-05-01") (some "2024-05-03")
      "G2" ⟨"+4917612345678", some "Bob"⟩ sampleHotel sampleStayDB
      Status.CANCEL sampleOldStay :=
  ⟨rfl, by decide,
   stay_update_frame "R1" "cancelled" (some "2024-05-01") (some "2024-05-03")
     "G2" ⟨"+4917612345678", some "Bob"⟩ sampleHotel sampleStayDB
     Status.CANCEL sampleOldStay rfl (by decide)⟩

/-- C2: the status mapping sends the six vendor strings to their
documented enum values, and for every status string outside these six,
create_or_update_stay returns FAILURE with the Stay table untouched and no
persistence operation performed. -/
theorem status_mapping_total_and_unknown_rejected :
    (RESERVATION_STATUS_MAPPING "in_house" = some Status.INSTAY ∧
     RESERVATION_STATUS_MAPPING "checked_out" = some Status.AFTER ∧
     RESERVATION_STATUS_MAPPING "cancelled" = some Status.CANCEL ∧
     RESERVATION_STATUS_MAPPING "no_show" = some Status.UNKNOWN ∧
     RESERVATION_STATUS_MAPPING "not_confirmed" = some Status.BEFORE ∧
     RESERVATION_STATUS_MAPPING "booked" = some Status.BEFORE) ∧
    (∀ (s rid : String) (ci co : Option String) (gid : String) (g : Guest)
       (h : Hotel) (db : StayDB),
       s ∉ ["in_house", "checked_out", "cancelled", "no_show",
            "not_confirmed", "booked"] →
       create_or_update_stay rid s ci co gid g h db =
         ⟨StayResult.failure, db, []⟩) := by
  refine ⟨⟨rfl, rfl, rfl, rfl, rfl, rfl⟩, ?_⟩
  intro s rid ci co gid g h db hs
  simp only [List.mem_cons, List.not_mem_nil, or_false, not_or] at hs
  obtain ⟨h1, h2, h3, h4, h5, h6⟩ := hs
  simp [create_or_update_stay, RESERVATION_STATUS_MAPPING, h1, h2, h3, h4, h5, h6]

/-- Witness for C2 at a concrete unknown status string: reconciliation
fails and performs no write. -/
theorem status_mapping_witness :
    "waitlisted" ∉ ["in_house", "checked_out", "cancelled", "no_show",
      "not_confirmed", "booked"] ∧
    create_or_update_stay "R1" "waitlisted" none none "G1" sampleGuest
      sampleHotel emptyStayDB = ⟨StayResult.failure, emptyStayDB, []⟩ :=
  ⟨by decide,
   status_mapping_total_and_unknown_rejected.2 "waitlisted" "R1" none none
     "G1" sampleGuest sampleHotel emptyStayDB (by decide)⟩

/-- A failed invocation advances the retry loop by one, performing exactly
one more invocation. -/
theorem apiLoop_fail_step {α : Type} (apiname : String) (f : Nat → Attempt α)
    (i n : Nat) (hi : i < 20) (hfail : isOkAttempt (f i) = false) :
    apiLoop apiname f i n = apiLoop apiname f (i + 1) (n + 1) := by
  rw [apiLoop]
  rw [if_pos hi]
  cases hfi : f i <;> simp_all [isOkAttempt]

/-- When every remaining invocation fails, the loop exhausts: it invokes
the operation once per remaining pass and ends in the terminal failure. -/
theorem apiLoop_exhaust {α : Type} (apiname : String) (f : Nat → Attempt α)
    (hf : ∀ j, j < 20 → isOkAttempt (f j) = false) :
    ∀ (k i n : Nat), 20 ≤ i + k →
      apiLoop apiname f i n =
        (Except.error (apiFailureMessage apiname), n + (20 - i)) := by
  intro k
  induction k with
  | zero =>
    intro i n hik
    have h20 : ¬ i < 20 := by omega
    have hsub : 20 - i = 0 := by omega
    rw [apiLoop, if_neg h20, hsub]
    rfl
  | succ k ih =>
    intro i n hik
    by_cases hi : i < 20
    · rw [apiLoop_fail_step apiname f i n hi (hf i hi), ih (i + 1) (n + 1) (by omega)]
      have harith : n + 1 + (20 - (i + 1)) = n + (20 - i) := by omega
      rw [harith]
    · have hsub : 20 - i = 0 := by omega
      rw [apiLoop, if_neg hi, hsub]
      rfl

/-- C3: an operation failing on every attempt is invoked exactly 20 times
and the client then raises the terminal failure naming the operation and
the retry count; an operation failing on its first 5 invocations and
succeeding with decodable JSON on the 6th returns the parsed result after
exactly 6 invocations. -/
theorem api_retry_bound :
    (∀ (α : Type) (apiname : String) (f : Nat → Attempt α),
       (∀ j, j < 20 → isOkAttempt (f j) = false) →
       api_call_with_retries apiname f =
         (Except.error (apiFailureMessage apiname), 20)) ∧
    (∀ (α : Type) (apiname : String) (f : Nat → Attempt α) (a : α),
       (∀ j, j < 5 → isOkAttempt (f j) = false) → f 5 = Attempt.ok a →
       api_call_with_retries apiname f = (Except.ok a, 6)) := by
  constructor
  · intro α apiname f hf
    unfold api_call_with_retries
    have h := apiLoop_exhaust apiname f hf 20 0 0 (by omega)
    simpa using h
  · intro α apiname f a hf h5
    unfold api_call_with_retries
    rw [apiLoop_fail_step apiname f 0 0 (by omega) (hf 0 (by omega)),
        apiLoop_fail_step apiname f 1 1 (by omega) (hf 1 (by omega)),
        apiLoop_fail_step apiname f 2 2 (by omega) (hf 2 (by omega)),
        apiLoop_fail_step apiname f 3 3 (by omega) (hf 3 (by omega)),
        apiLoop_fail_step apiname f 4 4 (by omega) (hf 4 (by omega))]
    rw [apiLoop, if_pos (by omega : (5 : Nat) < 20), h5]

/-- Witness for C3 at concrete operations: an always-raising operation is
invoked 20 times then fails terminally; a fail-5-then-succeed operation
returns the parsed value after 6 invocations. -/
theorem api_retry_bound_witness :
    (∀ j, j < 20 → isOkAttempt (alwaysRaise j) = false) ∧
    api_call_with_retries "get_guest_details" alwaysRaise =
      (Except.error (apiFailureMessage "get_guest_details"), 20) ∧
    (∀ j, j < 5 → isOkAttempt (failThenOk j) = false) ∧
    failThenOk 5 = Attempt.ok 7 ∧
    api_call_with_retries "get_reservation_details" failThenOk =
      (Except.ok 7, 6) :=
  ⟨fun _ _ => by simp [alwaysRaise, isOkAttempt],
   api_retry_bound.1 Nat "get_guest_details" alwaysRaise
     (fun _ _ => by simp [alwaysRaise, isOkAttempt]),
   fun j hj => by simp [failThenOk, isOkAttempt, hj],
   by decide,
   api_retry_bound.2 Nat "get_reservation_details" failThenOk 7
     (fun j hj => by simp [failThenOk, isOkAttempt, hj]) (by decide)⟩

/-- C9 (code evaluated at the bug): whatever parse and validity
capabilities are supplied and whatever the input, phone_is_valid returns
false, because the module never imports phonenumbers and the bare except
swallows the resulting NameError before the capability is consulted. -/
theorem phone_is_valid_always_false (parse : String → Option PhoneNumber)
    (is_valid_number : PhoneNumber → Bool) (phone : String) (e164 : Bool) :
    phone_is_valid parse is_valid_number phone e164 = false := by
  simp [phone_is_valid, pmsFunctionsImportedNames]

/-- C10 counterexample: the claim says stay_has_breakfast performs a live
fetch and returns the BreakfastIncluded field when present and
boolean-typed; at a concrete Stay whose live details would carry
BreakfastIncluded = true, the code returns None while the spec's
description yields some true. -/
theorem stay_has_breakfast_counterexample :
    stay_has_breakfast sampleStayBreakfast = none ∧
    stay_has_breakfast_spec (some (some (JsonField.jbool true))) = some true ∧
    stay_has_breakfast sampleStayBreakfast ≠
      stay_has_breakfast_spec (some (some (JsonField.jbool true))) := by
  decide

/-- C10 amended: stay_has_breakfast is an unimplemented stub: it performs
no fetch and returns None for every Stay. -/
theorem stay_has_breakfast_none (stay : Stay) :
    stay_has_breakfast stay = none :=
  rfl

/-- C5 counterexample: with Ann stored under a phone and a fetch carrying
the same phone but the name Bob, the call returns the stored Guest but the
surfaced report list is empty — the name mismatch holds yet is silently
dropped, contradicting the claim that it is surfaced to the caller. -/
theorem guest_name_mismatch_not_surfaced_counterexample :
    guestCallGuest (get_guest_from_reservation_guest_id (some detailsBob)
      sampleGuestDB) = some sampleGuest ∧
    sampleGuest.name ≠ normalizeGuestName detailsBob.Name ∧
    guestCallReports (get_guest_from_reservation_guest_id (some detailsBob)
      sampleGuestDB) = some [] := by
  decide

/-- C5 amended: resolving two fetches carrying the same phone returns the
same Guest the second time (the stored record is authoritative, whatever
the fetched names), and the report list surfaced by each call is empty:
a name mismatch is detected only by an if whose body is pass, so it is
never surfaced. -/
theorem guest_identity_stable_no_report
    (d1 d2 : GuestDetails) (db : GuestDB) (g1 : Guest) (db1 : GuestDB)
    (r1 : List String)
    (hphone : d2.Phone = d1.Phone)
    (h1 : get_guest_from_reservation_guest_id (some d1) db =
      Except.ok (g1, db1, r1)) :
    get_guest_from_reservation_guest_id (some d2) db1 =
      Except.ok (g1, db1, []) ∧ r1 = [] := by
  simp only [get_guest_from_reservation_guest_id] at h1 ⊢
  cases hdb : db d1.Phone with
  | some g =>
    simp only [getOrCreateGuest, hdb] at h1
    obtain ⟨hg, hdb1, hr⟩ : g = g1 ∧ db = db1 ∧ ([] : List String) = r1 := by
      simpa using h1
    subst hg; subst hdb1; subst hr
    constructor
    · simp [getOrCreateGuest, hphone, hdb]
    · rfl
  | none =>
    simp only [getOrCreateGuest, hdb] at h1
    obtain ⟨hg, hdb1, hr⟩ :
        ({ phone := d1.Phone, name := normalizeGuestName d1.Name } : Guest) = g1 ∧
        (fun p => if p = d1.Phone then
          some { phone := d1.Phone, name := normalizeGuestName d1.Name : Guest }
          else db p) = db1 ∧ ([] : List String) = r1 := by
      simpa using h1
    subst hg; subst hdb1; subst hr
    constructor
    · simp [getOrCreateGuest, hphone]
    · rfl

/-- Witness for the amended C5 at concrete inputs: resolving Ann's phone
twice, the second fetch carrying the name Bob, returns the same stored
Guest and empty reports both times. -/
theorem guest_identity_stable_no_report_witness :
    detailsBob.Phone = detailsAnn.Phone ∧
    get_guest_from_reservation_guest_id (some detailsAnn) emptyGuestDB =
      Except.ok (sampleGuest, guestDBAfterAnn, []) ∧
    (get_guest_from_reservation_guest_id (some detailsBob) guestDBAfterAnn =
      Except.ok (sampleGuest, guestDBAfterAnn, []) ∧ ([] : List String) = []) :=
  ⟨rfl, rfl,
   guest_identity_stable_no_report detailsAnn detailsBob emptyGuestDB
     sampleGuest guestDBAfterAnn [] rfl rfl⟩

/-- C6 counterexample: on a payload whose first event's fetched status is
unmapped and whose second event is a valid reservation update,
handle_webhook returns False at the first event and never processes the
second one (its Stay is not created) — it aborts the payload instead of
skipping the bad reservation and continuing. -/
theorem unknown_status_counterexample :
    hookReturn (handle_webhook envUnknownStatus wdUnknownStatus emptyDBState) =
      some false ∧
    hookStayAt (handle_webhook envUnknownStatus wdUnknownStatus emptyDBState)
      "R2" sampleHotel.id = some none := by
  decide

/-- C6 amended: when an event's fetched reservation status is not one of
the six mapped vendor statuses, handle_webhook returns False immediately
after the guest upsert: the whole payload is aborted, the remaining events
are not processed, and no Stay write is performed. -/
theorem unknown_status_aborts_payload
    (env : Env) (hid : String) (ev : Event) (rest : List Event)
    (h0 : Option Hotel) (st : DBState) (rid : String) (d : ResDetails)
    (gd : GuestDetails)
    (hname : ev.Name = "ReservationUpdated")
    (hval : lookupValue ev.Value "ReservationId" = some rid)
    (hres : env.get_reservation_details rid = some d)
    (hhid : d.HotelId = hid)
    (hguest : env.get_guest_details d.GuestId = some gd)
    (hstatus : RESERVATION_STATUS_MAPPING d.Status = none) :
    processEvents env hid (ev :: rest) h0 st =
      Except.ok (false,
        ⟨(getOrCreateGuest st.guests gd.Phone (normalizeGuestName gd.Name)).2,
         st.stays⟩) := by
  simp [processEvents, processEvent, hname, hval, hres, hhid, hguest, hstatus]

/-- Witness for the amended C6 at the concrete unknown-status scenario. -/
theorem unknown_status_aborts_payload_witness :
    (Event.mk "ReservationUpdated" [("ReservationId", "R1")]).Name =
      "ReservationUpdated" ∧
    lookupValue [("ReservationId", "R1")] "ReservationId" = some "R1" ∧
    envUnknownStatus.get_reservation_details "R1" =
      some ⟨"H1", "G1", "weird_status", "2024-05-01", "2024-05-03"⟩ ∧
    (ResDetails.mk "H1" "G1" "weird_status" "2024-05-01" "2024-05-03").HotelId =
      "H1" ∧
    envUnknownStatus.get_guest_details "G1" = some ⟨"Ann", "+15551230001"⟩ ∧
    RESERVATION_STATUS_MAPPING "weird_status" = none ∧
    processEvents envUnknownStatus "H1"
      [⟨"ReservationUpdated", [("ReservationId", "R1")]⟩,
       ⟨"ReservationUpdated", [("ReservationId", "R2")]⟩] none emptyDBState =
      Except.ok (false,
        ⟨(getOrCreateGuest emptyDBState.guests "+15551230001"
            (normalizeGuestName "Ann")).2,
          emptyDBState.stays⟩) :=
  ⟨rfl, by decide, by decide, rfl, by decide, by decide,
   unknown_status_aborts_payload envUnknownStatus "H1"
     ⟨"ReservationUpdated", [("ReservationId", "R1")]⟩
     [⟨"ReservationUpdated", [("ReservationId", "R2")]⟩] none emptyDBState
     "R1" ⟨"H1", "G1", "weird_status", "2024-05-01", "2024-05-03"⟩
     ⟨"Ann", "+15551230001"⟩ rfl (by decide) (by decide) rfl (by decide)
     (by decide)⟩

/-- C7 counterexample: on a valid payload whose first event has an
unrecognized Name and whose second event is a valid reservation update,
handle_webhook returns True (a success outcome, not a failure) and the
second event is fully processed (its Stay is created) — it does not abort
at the unrecognized event. -/
theorem unrecognized_event_counterexample :
    hookReturn (handle_webhook envUnrecognizedName wdUnrecognizedName
      emptyDBState) = some true ∧
    hookStayAt (handle_webhook envUnrecognizedName wdUnrecognizedName
      emptyDBState) "R2" sampleHotel.id = some (some stayR2) := by
  decide

/-- C7 amended: an event whose Name is not "ReservationUpdated" matches no
branch of the loop body and is silently skipped: processing continues with
the remaining events exactly as if the event were absent. -/
theorem unrecognized_event_skipped (env : Env) (hid : String) (ev : Event)
    (rest : List Event) (h0 : Option Hotel) (st : DBState)
    (hname : ev.Name ≠ "ReservationUpdated") :
    processEvents env hid (ev :: rest) h0 st =
      processEvents env hid rest h0 st := by
  simp [processEvents, processEvent, hname]

/-- Witness for the amended C7 at the concrete unrecognized-name
scenario. -/
theorem unrecognized_event_skipped_witness :
    (Event.mk "SomethingElse" [("Foo", "Bar")]).Name ≠ "ReservationUpdated" ∧
    processEvents envUnrecognizedName "H1"
      [⟨"SomethingElse", [("Foo", "Bar")]⟩,
       ⟨"ReservationUpdated", [("ReservationId", "R2")]⟩] none emptyDBState =
      processEvents envUnrecognizedName "H1"
        [⟨"ReservationUpdated", [("ReservationId", "R2")]⟩] none emptyDBState :=
  ⟨by decide,
   unrecognized_event_skipped envUnrecognizedName "H1"
     ⟨"SomethingElse", [("Foo", "Bar")]⟩
     [⟨"ReservationUpdated", [("ReservationId", "R2")]⟩] none emptyDBState
     (by decide)⟩

/-- C8 counterexample: on a payload whose reservation resolves but whose
hotel is absent from the Hotel table, handle_webhook does not return a
failure result: it raises an unhandled error (the local variable hotel is
referenced before assignment at the Stay lookup). -/
theorem hotel_miss_counterexample :
    hookError (handle_webhook envNoHotel wdNoHotel emptyDBState) =
      some "UnboundLocalError: local variable hotel referenced before assignment" ∧
    hookReturn (handle_webhook envNoHotel wdNoHotel emptyDBState) = none := by
  decide

/-- C8 amended: when the Hotel lookup misses, the miss is silently passed
through; if no earlier event bound the hotel variable, processing reaches
the Stay existence check with the variable unbound and raises an unhandled
error, performing no Stay write. -/
theorem hotel_miss_unbound_error
    (env : Env) (hid : String) (ev : Event) (rest : List Event) (st : DBState)
    (rid : String) (d : ResDetails) (gd : GuestDetails) (s : Status)
    (hname : ev.Name = "ReservationUpdated")
    (hval : lookupValue ev.Value "ReservationId" = some rid)
    (hres : env.get_reservation_details rid = some d)
    (hhid : d.HotelId = hid)
    (hhotel : env.hotels hid = none)
    (hguest : env.get_guest_details d.GuestId = some gd)
    (hstatus : RESERVATION_STATUS_MAPPING d.Status = some s) :
    processEvents env hid (ev :: rest) none st =
      Except.error
        "UnboundLocalError: local variable hotel referenced before assignment" := by
  simp [processEvents, processEvent, hname, hval, hres, hhid, hhotel, hguest,
    hstatus]

/-- Witness for the amended C8 at the concrete hotel-miss scenario. -/
theorem hotel_miss_unbound_error_witness :
    (Event.mk "ReservationUpdated" [("ReservationId", "R1")]).Name =
      "ReservationUpdated" ∧
    lookupValue [("ReservationId", "R1")] "ReservationId" = some "R1" ∧
    envNoHotel.get_reservation_details "R1" =
      some ⟨"H1", "G1", "booked", "2024-05-01", "2024-05-03"⟩ ∧
    (ResDetails.mk "H1" "G1" "booked" "2024-05-01" "2024-05-03").HotelId =
      "H1" ∧
    envNoHotel.hotels "H1" = none ∧
    envNoHotel.get_guest_details "G1" = some ⟨"Ann", "+15551230001"⟩ ∧
    RESERVATION_STATUS_MAPPING "booked" = some Status.BEFORE ∧
    processEvents envNoHotel "H1"
      [⟨"ReservationUpdated", [("ReservationId", "R1")]⟩] none emptyDBState =
      Except.error
        "UnboundLocalError: local variable hotel referenced before assignment" :=
  ⟨rfl, by decide, by decide, rfl, rfl, by decide, by decide,
   hotel_miss_unbound_error envNoHotel "H1"
     ⟨"ReservationUpdated", [("ReservationId", "R1")]⟩ [] emptyDBState
     "R1" ⟨"H1", "G1", "booked", "2024-05-01", "2024-05-03"⟩
     ⟨"Ann", "+15551230001"⟩ Status.BEFORE rfl (by decide) (by decide) rfl
     rfl (by decide) (by decide)⟩
